import Mathlib

/-!
Verification of the Movement Validation & Metrics Engine of the back_end
repository: a shallow embedding of `src/controllers/movementController.js`
and of the movement schema's pre-save hook in `src/models/admin.js`.

Modelling conventions:
* JS numbers are rationals (`ℚ`); timestamps are milliseconds since the
  epoch (`ℤ`); document ids are `ℕ`.
* `Math.round x` is `⌊x + 1/2⌋` (JS rounds halves toward +∞).
* `x.toFixed(d)` followed by `parseFloat` is rounding at `10^d` (the
  ECMAScript `toFixed` picks the larger candidate on ties, which agrees
  with half-up rounding).
* `parseInt` applied to a number first stringifies it (`jsParseInt`):
  truncation toward zero while the string is in decimal notation
  (`1e-6 ≤ |x| < 1e21`), and the leading mantissa digit when the string is
  in exponent notation (`parseInt(5e-7) = 5`).
* A JS value that may be `undefined` or non-numeric is an `Option`;
  JS falsiness of a number is being `0`.
* The Mongo collection of movements is a `List Movement`; `countDocuments`
  is `List.filter` + `List.length`, `findOne` is `List.find?`, and a
  `document.save()` replaces the list entry with the same `_id` and runs
  the schema's pre-save hook.  Mongoose schema-level field validators
  (`required`, `enum`, `min`/`max`) and the post-save statistics hook are
  outside this embedding: the claims under verification are about the
  controller pipeline and the pre-save hook.
-/

namespace Backend

/-- JS `Math.round`: round half toward positive infinity. -/
def jsRound (x : ℚ) : ℤ := ⌊x + 1/2⌋

/-- `x.toFixed(d)` re-parsed as a number: round to `d` decimal places. -/
def roundTo (d : ℕ) (x : ℚ) : ℚ := (jsRound (x * 10 ^ d) : ℚ) / 10 ^ d

/-- JS `parseInt` applied to a number.  ECMAScript converts the number to
a string (`Number::toString`) and parses the leading integer digits.  For
`1e-6 ≤ |x| < 1e21` the string is in decimal notation and the result is
truncation toward zero; for nonzero `x` outside that range the string is
in exponent notation `d.ddd…e±k` with a single mantissa digit before the
point, so `parseInt` returns that leading significant digit
(`⌊|x| / 10 ^ ⌊log10 |x|⌋⌋`) carrying the sign: `parseInt(5e-7) = 5`. -/
def jsParseInt (x : ℚ) : ℤ :=
  if x = 0 then 0
  else if |x| < 1 / 10 ^ 6 ∨ (10 : ℚ) ^ (21 : ℕ) ≤ |x| then
    (if 0 < x then 1 else -1) * ⌊|x| / (10 : ℚ) ^ Int.log 10 |x|⌋
  else if 0 ≤ x then ⌊x⌋ else -⌊-x⌋

/-- JS `String.prototype.trim`: drop leading and trailing whitespace
(structural counterpart of `String.trim`, stated over the character
list so that it evaluates inside the kernel). -/
def jsTrim (s : String) : String :=
  String.mk (((s.data.dropWhile Char.isWhitespace).reverse.dropWhile
    Char.isWhitespace).reverse)

/-- A location object as submitted by the client.  `latitude`/`longitude`
are `none` when the field is missing or not a number (`typeof` check in
`validateLocation`). -/
structure LocationInput where
  latitude : Option ℚ
  longitude : Option ℚ
  address : Option String := none
  timestamp : Option ℤ := none
deriving DecidableEq

/-- `validateLocation` (movementController.js lines 26-50).  The argument is
`none` when the submitted value is not an object (`!location || typeof
location !== 'object'`).  `colombiaBounds` models
`process.env.VALIDATE_COLOMBIA_BOUNDS === 'true'`. -/
def validateLocation (colombiaBounds : Bool) : Option LocationInput → Bool
  | none => false
  | some l =>
    match l.latitude, l.longitude with
    | some lat, some lon =>
      if lat < -90 ∨ lat > 90 ∨ lon < -180 ∨ lon > 180 then false
      else if colombiaBounds ∧ (lat < -4.2 ∨ lat > 12.5 ∨ lon < -84.8 ∨ lon > -66.9) then
        false
      else true
    | _, _ => false

/-- Process-wide configuration read by `registerMovement`. -/
structure Config where
  /-- `process.env.VALIDATE_COLOMBIA_BOUNDS === 'true'`. -/
  validateColombiaBounds : Bool
  /-- `parseInt(process.env.MAX_MOVEMENTS_PER_DAY)`: `none` when the
  variable is unset or not numeric (`NaN`). -/
  maxMovementsPerDayEnv : Option ℕ
deriving DecidableEq

/-- `parseInt(process.env.MAX_MOVEMENTS_PER_DAY) || 50`: `NaN` and `0` are
falsy, so both fall back to the default 50. -/
def Config.maxMovementsPerDay (cfg : Config) : ℕ :=
  match cfg.maxMovementsPerDayEnv with
  | none => 50
  | some n => if n = 0 then 50 else n

/-- The request body of `registerMovement` (destructured at lines 71-82).
`fecha` is `none` when absent or when `moment(fecha).isValid()` is false. -/
structure Submission where
  start_location : Option LocationInput
  end_location : Option LocationInput
  distancia_recorrida : ℚ
  velocidad_promedio : ℚ
  velocidad_maxima : ℚ
  tiempo_total : ℚ
  fecha : Option ℤ
  region : String
  waypoints : List (Option LocationInput) := []
deriving DecidableEq

/-- The `errors` object built by the controller: field name → message. -/
abbrev ErrorMap := List (String × String)

/-- Does the error map contain an entry for field `k`? -/
def hasErr (m : ErrorMap) (k : String) : Bool := m.any (fun p => p.1 = k)

/-- The date rule (lines 127-138).  `moment(fecha).isValid()` failing or a
missing `fecha` is the `none` case.  `movementDate.isAfter(now)` is
`now < t`; `movementDate.isBefore(now.subtract(7, 'days'))` compares with
the moment seven days before `now` (the mutation of `now` happens after its
only other use).  The two conditions are mutually exclusive, so building
the singleton fragments by concatenation gives the same object as the two
sequential assignments to `errors.fecha` in the source. -/
def dateErrors (now : ℤ) (fecha : Option ℤ) : ErrorMap :=
  match fecha with
  | none => [("fecha", "Fecha inválida")]
  | some t =>
    (if now < t then [("fecha", "La fecha no puede ser futura")] else []) ++
      (if t < now - 7 * 86400000 then
        [("fecha", "La fecha no puede ser mayor a 7 días en el pasado")] else [])

/-- The field validation block of `registerMovement` (lines 96-142).  Each
rule contributes its entry independently (the source is a sequence of
independent `if` statements assigning distinct keys of one object; the two
assignments to `errors.velocidad_maxima` are merged into one entry whose
message is the one the source would leave in place).  JS falsiness of a
missing/zero number (`!distancia_recorrida` …) is subsumed by the `≤ 0`
comparisons; `!region` is subsumed by the trimmed-length lower bound. -/
def validateSubmission (cfg : Config) (now : ℤ) (s : Submission) : ErrorMap :=
  (if ¬ (validateLocation cfg.validateColombiaBounds s.start_location = true) then
    [("start_location", "Ubicación de inicio inválida o fuera de rango")] else []) ++
  (if ¬ (validateLocation cfg.validateColombiaBounds s.end_location = true) then
    [("end_location", "Ubicación final inválida o fuera de rango")] else []) ++
  (if s.distancia_recorrida ≤ 0 ∨ 1000 < s.distancia_recorrida then
    [("distancia_recorrida", "Distancia debe estar entre 0.01 y 1000 km")] else []) ++
  (if s.velocidad_promedio ≤ 0 ∨ 200 < s.velocidad_promedio then
    [("velocidad_promedio", "Velocidad promedio debe estar entre 0.1 y 200 km/h")] else []) ++
  (if s.velocidad_maxima ≤ 0 ∨ 300 < s.velocidad_maxima ∨
      s.velocidad_maxima < s.velocidad_promedio then
    [("velocidad_maxima",
      if s.velocidad_maxima < s.velocidad_promedio then
        "Velocidad máxima no puede ser menor que la promedio"
      else "Velocidad máxima debe estar entre 0.1 y 300 km/h")] else []) ++
  (if s.tiempo_total ≤ 0 ∨ 1440 < s.tiempo_total then
    [("tiempo_total", "Tiempo total debe estar entre 0.1 y 1440 minutos")] else []) ++
  dateErrors now s.fecha ++
  (if s.region = "" ∨ (jsTrim s.region).length < 2 ∨ 50 < (jsTrim s.region).length then
    [("region", "Región debe tener entre 2 y 50 caracteres")] else [])

/-- A stored location sub-document (built at lines 211-222). -/
structure LocStored where
  latitude : ℚ
  longitude : ℚ
  address : Option String
  timestamp : ℤ
deriving DecidableEq

/-- A persisted movement document (the fields of `movementData`, lines
209-245, plus the soft-delete fields of the schema).  The metadata
calculations are flattened into `efficiency` and `distanceAccuracy`. -/
structure Movement where
  mongoId : ℕ
  user_id : ℕ
  start_location : LocStored
  end_location : LocStored
  distancia_recorrida : ℚ
  distancia_calculada : ℚ
  velocidad_promedio : ℚ
  velocidad_maxima : ℚ
  tiempo_total : ℤ
  fecha : ℤ
  fecha_fin : Option ℤ := none
  region : String
  waypoints : List (Option LocationInput)
  efficiency : ℚ
  distanceAccuracy : ℚ
  deleted : Bool := false
  deletedAt : Option ℤ := none
  deletedBy : Option ℕ := none
deriving DecidableEq

/-- First step of the pre-save hook (models/admin.js lines 560-563):
derive `tiempo_total` from `fecha_fin − fecha` when `tiempo_total` is
falsy (0). -/
def durationStep (m : Movement) : Movement :=
  match m.fecha_fin with
  | some ff =>
    if m.tiempo_total = 0 then
      { m with tiempo_total := jsRound (((ff - m.fecha : ℤ) : ℚ) / (1000 * 60)) }
    else m
  | none => m

/-- The movement schema's pre-save hook (models/admin.js lines 557-589):
the duration derivation followed by the clamp of `velocidad_promedio`
down to `velocidad_maxima`.  The audit-bookkeeping and incident-timestamp
branches touch only fields outside this embedding. -/
def preSave (m : Movement) : Movement :=
  let m := durationStep m
  if m.velocidad_maxima > 0 ∧ m.velocidad_promedio > m.velocidad_maxima then
    { m with velocidad_promedio := m.velocidad_maxima }
  else m

/-- `location.latitude` read on the accept path (the location is known to
be a valid object there; `0` stands for the unreachable missing case). -/
def locLat (o : Option LocationInput) : ℚ :=
  ((o.getD ⟨none, none, none, none⟩).latitude).getD 0

/-- `location.longitude`, as `locLat`. -/
def locLon (o : Option LocationInput) : ℚ :=
  ((o.getD ⟨none, none, none, none⟩).longitude).getD 0

/-- `x || null` on an optional string (empty string is falsy). -/
def jsOrNull (a : Option String) : Option String :=
  match a with
  | some v => if v = "" then none else some v
  | none => none

/-- `location.timestamp || fecha` (a 0 timestamp is falsy). -/
def jsOrElse (t : Option ℤ) (d : ℤ) : ℤ :=
  match t with
  | some v => if v = 0 then d else v
  | none => d

/-- The stored location built from a submitted one (lines 211-222). -/
def buildLoc (o : Option LocationInput) (fecha : ℤ) : LocStored :=
  { latitude := roundTo 6 (locLat o)
    longitude := roundTo 6 (locLon o)
    address := jsOrNull ((o.getD ⟨none, none, none, none⟩).address)
    timestamp := jsOrElse ((o.getD ⟨none, none, none, none⟩).timestamp) fecha }

/-- `movementData` (lines 209-245): the document handed to
`new Movement(...)`.  `calcDist` is the controller's `calculateDistance`
(the floating-point haversine, modelled abstractly here; its real-number
counterpart is `calculateDistance` below).  `fid` is the `_id` Mongo
assigns on insert. -/
def buildMovement (cfg : Config) (calcDist : ℚ → ℚ → ℚ → ℚ → ℚ)
    (uid fid : ℕ) (s : Submission) : Movement :=
  let fechaVal := s.fecha.getD 0
  let calculatedDistance :=
    calcDist (locLat s.start_location) (locLon s.start_location)
      (locLat s.end_location) (locLon s.end_location)
  { mongoId := fid
    user_id := uid
    start_location := buildLoc s.start_location fechaVal
    end_location := buildLoc s.end_location fechaVal
    distancia_recorrida := roundTo 2 s.distancia_recorrida
    distancia_calculada := calculatedDistance
    velocidad_promedio := roundTo 1 s.velocidad_promedio
    velocidad_maxima := roundTo 1 s.velocidad_maxima
    tiempo_total := jsParseInt s.tiempo_total
    fecha := fechaVal
    fecha_fin := none
    region := jsTrim s.region
    waypoints := s.waypoints.filter (validateLocation cfg.validateColombiaBounds)
    efficiency :=
      if 0 < s.velocidad_promedio then
        roundTo 2 (s.distancia_recorrida / (s.tiempo_total / 60))
      else 0
    distanceAccuracy := |calculatedDistance - s.distancia_recorrida|
    deleted := false
    deletedAt := none
    deletedBy := none }

/-- The user document fields `registerMovement` selects (line 173). -/
structure UserRec where
  activo : Bool
deriving DecidableEq

/-- `moment().startOf('day')` in epoch milliseconds (UTC model). -/
def startOfDay (now : ℤ) : ℤ := 86400000 * (Int.fdiv now 86400000)

/-- `moment().endOf('day')` in epoch milliseconds. -/
def endOfDay (now : ℤ) : ℤ := startOfDay now + 86399999

/-- The quota count the code runs (lines 188-194): all movements of the
user dated today — with no condition on the `deleted` flag. -/
def codeQuotaCount (store : List Movement) (uid : ℕ) (now : ℤ) : ℕ :=
  (store.filter (fun r =>
    decide (r.user_id = uid ∧ startOfDay now ≤ r.fecha ∧ r.fecha ≤ endOfDay now))).length

/-- Modelled from the spec: the count §4.4 claims the Quota Enforcer uses —
"existing accepted, non-deleted records for `ownerId` whose `date` falls
within the same calendar day" — i.e. the code's count restricted to
records whose `deleted` flag is unset. -/
def specQuotaCount (store : List Movement) (uid : ℕ) (now : ℤ) : ℕ :=
  (store.filter (fun r =>
    decide (r.user_id = uid ∧ startOfDay now ≤ r.fecha ∧ r.fecha ≤ endOfDay now ∧
      r.deleted = false))).length

/-- The outcome of `registerMovement` visible to the caller. -/
inductive RegisterResult where
  /-- 400 `MOVEMENT_VALIDATION_ERROR` with the field→message object. -/
  | validationError (errors : ErrorMap)
  /-- 403 `USER_NOT_AUTHORIZED`. -/
  | userNotAuthorized
  /-- 429 `DAILY_LIMIT_EXCEEDED` with `currentCount` and `limit`. -/
  | quotaExceeded (currentCount limit : ℕ)
  /-- 201 with the saved movement and the day's stats. -/
  | created (movement : Movement) (todayMovements : ℕ) (remainingToday : ℤ)
deriving DecidableEq

/-- Did the call answer 201 (a record was created)? -/
def RegisterResult.isCreated : RegisterResult → Bool
  | .created _ _ _ => true
  | _ => false

/-- `registerMovement` (lines 69-334): validation, the informational
coherence check (it only logs), the active-user check, the daily-quota
check, and the insert of the enriched document (through the pre-save
hook).  Returns the response and the collection after the call. -/
def registerMovement (cfg : Config) (calcDist : ℚ → ℚ → ℚ → ℚ → ℚ) (now : ℤ)
    (user : Option UserRec) (store : List Movement) (uid fid : ℕ)
    (s : Submission) : RegisterResult × List Movement :=
  let errors := validateSubmission cfg now s
  if errors = [] then
    -- lines 154-170: calculateDistance is evaluated and compared to the
    -- claimed distance; a discrepancy beyond 0.5 km is only console.warn-ed.
    match user with
    | none => (.userNotAuthorized, store)
    | some u =>
      if u.activo then
        let movementsToday := codeQuotaCount store uid now
        let limit := cfg.maxMovementsPerDay
        if limit ≤ movementsToday then
          (.quotaExceeded movementsToday limit, store)
        else
          let mov := preSave (buildMovement cfg calcDist uid fid s)
          (.created mov (movementsToday + 1) ((limit : ℤ) - (movementsToday + 1)),
            store ++ [mov])
      else (.userNotAuthorized, store)
  else (.validationError errors, store)

/-- `getMovementById`'s query (lines 497-500): owner-scoped `findOne`, with
no condition on the `deleted` flag. -/
def getMovementById (store : List Movement) (uid movId : ℕ) : Option Movement :=
  store.find? (fun r => r.mongoId == movId && r.user_id == uid)

/-- The optional query-string filters of `getUserMovements` (lines 340-378). -/
structure MovementQuery where
  startDate : Option ℤ := none
  endDate : Option ℤ := none
  region : Option String := none
  minDistance : Option ℚ := none
  maxDistance : Option ℚ := none
deriving DecidableEq

/-- Case-insensitive substring test: `$regex` with option `i` on a literal
pattern. -/
def containsSub (s pat : String) : Bool :=
  pat = "" || 2 ≤ (s.splitOn pat).length

/-- The Mongo filter document `getUserMovements` builds (lines 362-378):
`user_id` plus the optional date, region and distance filters — and no
condition on the `deleted` flag. -/
def matchesFilters (uid : ℕ) (q : MovementQuery) (r : Movement) : Bool :=
  (r.user_id == uid) &&
  (match q.startDate with | none => true | some d => decide (d ≤ r.fecha)) &&
  (match q.endDate with | none => true | some d => decide (r.fecha ≤ d)) &&
  (match q.region with
   | none => true
   | some pat => containsSub r.region.toLower pat.toLower) &&
  (match q.minDistance with | none => true | some d => decide (d ≤ r.distancia_recorrida)) &&
  (match q.maxDistance with | none => true | some d => decide (r.distancia_recorrida ≤ d))

/-- The match set of `getUserMovements` (`Movement.find(filters)` before
sorting and pagination, which only reorder and slice this list). -/
def getUserMovementsList (store : List Movement) (uid : ℕ) (q : MovementQuery) :
    List Movement :=
  store.filter (matchesFilters uid q)

/-- `Movement.countDocuments(filters)` of `getUserMovements` (line 398). -/
def getUserMovementsCount (store : List Movement) (uid : ℕ) (q : MovementQuery) : ℕ :=
  (getUserMovementsList store uid q).length

/-- The outcome of `deleteMovement` visible to the caller.  (The
ObjectId-format check of lines 787-794 has no counterpart for `ℕ` ids.) -/
inductive DeleteResult where
  /-- 404 `MOVEMENT_NOT_FOUND`. -/
  | notFound
  /-- 200 with the id and the deletion timestamp. -/
  | deletedOk (movementId : ℕ) (deletedAt : ℤ)
deriving DecidableEq

/-- The soft-delete marking of lines 811-815, followed by the pre-save hook
that `movement.save()` runs. -/
def markDeleted (m : Movement) (uid : ℕ) (now : ℤ) : Movement :=
  preSave { m with deleted := true, deletedAt := some now, deletedBy := some uid }

/-- `deleteMovement` (lines 774-845): owner-scoped `findOne`, then a soft
delete saved back (replacing the document with that `_id`). -/
def deleteMovement (store : List Movement) (uid movId : ℕ) (now : ℤ) :
    DeleteResult × List Movement :=
  match store.find? (fun r => r.mongoId == movId && r.user_id == uid) with
  | none => (.notFound, store)
  | some m =>
    let m' := markDeleted m uid now
    (.deletedOk movId now,
      store.map (fun r => if r.mongoId == m.mongoId then m' else r))

/-!  The Geodesic Calculator over exact reals.  The controller computes with
IEEE doubles; the real-number reading below keeps the exact formula
structure of lines 9-24 (haversine `a`-term, the `atan2` formulation, the
Earth radius 6371 km, `Math.round(d*100)/100`). -/

/-- `deg2rad` (lines 22-24). -/
noncomputable def deg2rad (deg : ℝ) : ℝ := deg * (Real.pi / 180)

/-- JS `Math.atan2 y x` on the reals. -/
noncomputable def atan2 (y x : ℝ) : ℝ :=
  if 0 < x then Real.arctan (y / x)
  else if x < 0 then
    (if 0 ≤ y then Real.arctan (y / x) + Real.pi
     else Real.arctan (y / x) - Real.pi)
  else
    (if 0 < y then Real.pi / 2 else if y < 0 then -(Real.pi / 2) else 0)

/-- The haversine `a` term (lines 11-16). -/
noncomputable def haversineTerm (lat1 lon1 lat2 lon2 : ℝ) : ℝ :=
  let dLat := deg2rad (lat2 - lat1)
  let dLon := deg2rad (lon2 - lon1)
  Real.sin (dLat / 2) * Real.sin (dLat / 2) +
    Real.cos (deg2rad lat1) * Real.cos (deg2rad lat2) *
      (Real.sin (dLon / 2) * Real.sin (dLon / 2))

/-- `calculateDistance` (lines 9-20): `R * c` with `R = 6371`,
`c = 2 * atan2 (sqrt a) (sqrt (1 - a))`, rounded to 2 decimal places. -/
noncomputable def calculateDistance (lat1 lon1 lat2 lon2 : ℝ) : ℝ :=
  let a := haversineTerm lat1 lon1 lat2 lon2
  let c := 2 * atan2 (Real.sqrt a) (Real.sqrt (1 - a))
  let distance := 6371 * c
  ((⌊distance * 100 + 1 / 2⌋ : ℤ) : ℝ) / 100

/-!  Concrete instances used by the witnesses and the counterexample. -/

/-- Bounding box disabled, `MAX_MOVEMENTS_PER_DAY` unset (default 50). -/
def cfgC : Config := ⟨false, none⟩

/-- A fixed current moment (2023-11-14T22:13:20Z in epoch ms). -/
def nowC : ℤ := 1700000000000

/-- A well-formed submission dated at the current moment. -/
def subC : Submission :=
  { start_location := some ⟨some 5, some (-74), none, none⟩
    end_location := some ⟨some 6, some (-75), none, none⟩
    distancia_recorrida := 15
    velocidad_promedio := 30
    velocidad_maxima := 60
    tiempo_total := 60
    fecha := some nowC
    region := "Caldas"
    waypoints := [] }

/-- A stand-in for the floating-point `calculateDistance` collaborator. -/
def distC : ℚ → ℚ → ℚ → ℚ → ℚ := fun _ _ _ _ => 14

/-- A soft-deleted movement of user 1 dated at the current moment. -/
def delMovC : Movement :=
  { mongoId := 7
    user_id := 1
    start_location := ⟨5, -74, none, nowC⟩
    end_location := ⟨6, -75, none, nowC⟩
    distancia_recorrida := 15
    distancia_calculada := 14
    velocidad_promedio := 30
    velocidad_maxima := 60
    tiempo_total := 60
    fecha := nowC
    fecha_fin := none
    region := "Caldas"
    waypoints := []
    efficiency := 15
    distanceAccuracy := 1
    deleted := true
    deletedAt := some nowC
    deletedBy := some 1 }

/-- Fifty soft-deleted movements of user 1, all dated today. -/
def storeC : List Movement := List.replicate 50 delMovC

/-- `subC` with the maximum speed below the average speed. -/
def subMaxLtAvg : Submission := { subC with velocidad_maxima := 10 }

/-- `subC` with an out-of-range distance and a too-short region label. -/
def subTwoBad : Submission :=
  { subC with distancia_recorrida := 2000, region := "x" }

/-- `subC` with a fractional duration strictly below one minute. -/
def subHalf : Submission := { subC with tiempo_total := 1 / 2 }

/-- `subC` with the duration `5e-7`: positive, below the exponent-notation
threshold `1e-6`. -/
def subTiny : Submission := { subC with tiempo_total := 1 / 2000000 }

/-- `subC` with five waypoints of which the second and fourth have an
out-of-range latitude. -/
def subWaypoints : Submission :=
  { subC with waypoints :=
      [some ⟨some 5, some (-74), none, none⟩,
       some ⟨some 95, some (-74), none, none⟩,
       some ⟨some 6, some (-74), none, none⟩,
       some ⟨some (-91), some (-74), none, none⟩,
       some ⟨some 7, some (-74), none, none⟩] }

/-- A movement needing the pre-save clamp: positive max speed below the
average speed. -/
def clampMovC : Movement :=
  { delMovC with
    deleted := false
    deletedAt := none
    deletedBy := none
    velocidad_promedio := 60
    velocidad_maxima := 50 }

/-- A live (non-deleted) movement of user 1, used by the soft-delete
witness. -/
def liveMovC : Movement :=
  { delMovC with deleted := false, deletedAt := none, deletedBy := none }

/-! ### Helper lemmas about the error map -/

theorem ite_single_eq_nil (c : Prop) [Decidable c] (x : String × String) :
    ((if c then [x] else []) = ([] : ErrorMap)) ↔ ¬ c := by
  split <;> simp_all

theorem hasErr_append (a b : ErrorMap) (k : String) :
    hasErr (a ++ b) k = (hasErr a k || hasErr b k) := by
  simp [hasErr]

theorem hasErr_ite_single (c : Prop) [Decidable c] (k v k' : String) :
    hasErr (if c then [(k, v)] else []) k' = (decide c && decide (k = k')) := by
  by_cases h : c <;> simp [h, hasErr]

theorem hasErr_dateErrors_ne (now : ℤ) (f : Option ℤ) (k : String)
    (hk : ¬ ("fecha" = k)) : hasErr (dateErrors now f) k = false := by
  cases f <;> simp [dateErrors, hasErr, hasErr_append, hasErr_ite_single, hk]

theorem hasErr_dateErrors_fecha (now t : ℤ) :
    hasErr (dateErrors now (some t)) "fecha" =
      (decide (now < t) || decide (t < now - 7 * 86400000)) := by
  simp only [dateErrors, hasErr_append, hasErr_ite_single]
  simp

theorem dateErrors_eq_nil (now : ℤ) (t : ℤ) :
    dateErrors now (some t) = [] ↔ (t ≤ now ∧ now - 7 * 86400000 ≤ t) := by
  simp [dateErrors, List.append_eq_nil, not_lt]

/-- The validation block accepts exactly when every field rule holds. -/
theorem validateSubmission_eq_nil (cfg : Config) (now : ℤ) (s : Submission) :
    validateSubmission cfg now s = [] ↔
      (validateLocation cfg.validateColombiaBounds s.start_location = true ∧
       validateLocation cfg.validateColombiaBounds s.end_location = true ∧
       (0 < s.distancia_recorrida ∧ s.distancia_recorrida ≤ 1000) ∧
       (0 < s.velocidad_promedio ∧ s.velocidad_promedio ≤ 200) ∧
       (0 < s.velocidad_maxima ∧ s.velocidad_maxima ≤ 300 ∧
         s.velocidad_promedio ≤ s.velocidad_maxima) ∧
       (0 < s.tiempo_total ∧ s.tiempo_total ≤ 1440) ∧
       dateErrors now s.fecha = [] ∧
       (¬ s.region = "" ∧ 2 ≤ (jsTrim s.region).length ∧
         (jsTrim s.region).length ≤ 50)) := by
  simp [validateSubmission, List.append_eq_nil, ite_single_eq_nil, not_or,
    not_lt, not_le, and_assoc]

/-! ### Helper lemmas about the pre-save hook and rounding -/

theorem durationStep_velocidad_promedio (m : Movement) :
    (durationStep m).velocidad_promedio = m.velocidad_promedio := by
  unfold durationStep
  cases m.fecha_fin <;> [rfl; split_ifs <;> rfl]

theorem durationStep_velocidad_maxima (m : Movement) :
    (durationStep m).velocidad_maxima = m.velocidad_maxima := by
  unfold durationStep
  cases m.fecha_fin <;> [rfl; split_ifs <;> rfl]

theorem durationStep_of_fecha_fin_none (m : Movement)
    (hf : m.fecha_fin = none) : durationStep m = m := by
  unfold durationStep
  rw [hf]

theorem preSave_velocidad_maxima (m : Movement) :
    (preSave m).velocidad_maxima = m.velocidad_maxima := by
  simp only [preSave]
  split_ifs <;> simp [durationStep_velocidad_maxima]

theorem preSave_of_fecha_fin_none (m : Movement) (hf : m.fecha_fin = none) :
    preSave m =
      if m.velocidad_maxima > 0 ∧ m.velocidad_promedio > m.velocidad_maxima then
        { m with velocidad_promedio := m.velocidad_maxima }
      else m := by
  unfold preSave
  rw [durationStep_of_fecha_fin_none m hf]

theorem preSave_clamps (m : Movement) (h1 : 0 < m.velocidad_maxima)
    (h2 : m.velocidad_maxima < m.velocidad_promedio) :
    (preSave m).velocidad_promedio = m.velocidad_maxima := by
  simp only [preSave]
  rw [if_pos]
  · simp [durationStep_velocidad_maxima]
  · exact ⟨by rwa [durationStep_velocidad_maxima], by
      rwa [durationStep_velocidad_maxima, durationStep_velocidad_promedio]⟩

theorem preSave_speedInv (m : Movement)
    (h : m.velocidad_promedio ≤ m.velocidad_maxima) :
    (preSave m).velocidad_promedio ≤ (preSave m).velocidad_maxima := by
  simp only [preSave]
  split_ifs with hc
  · simp
  · rw [durationStep_velocidad_promedio, durationStep_velocidad_maxima]
    exact h

theorem roundTo_mono (d : ℕ) {x y : ℚ} (h : x ≤ y) :
    roundTo d x ≤ roundTo d y := by
  unfold roundTo jsRound
  have hp : (0 : ℚ) < 10 ^ d := by positivity
  have h1 : x * 10 ^ d + 1 / 2 ≤ y * 10 ^ d + 1 / 2 := by nlinarith
  have h2 : (⌊x * 10 ^ d + 1 / 2⌋ : ℚ) ≤ (⌊y * 10 ^ d + 1 / 2⌋ : ℚ) := by
    exact_mod_cast Int.floor_le_floor h1
  exact div_le_div_of_nonneg_right h2 hp.le

/-! ### Helper lemmas about `registerMovement` -/

theorem registerMovement_created (cfg : Config) (calcDist : ℚ → ℚ → ℚ → ℚ → ℚ)
    (now : ℤ) (store : List Movement) (uid fid : ℕ) (s : Submission)
    (hv : validateSubmission cfg now s = [])
    (hq : codeQuotaCount store uid now < cfg.maxMovementsPerDay) :
    registerMovement cfg calcDist now (some ⟨true⟩) store uid fid s =
      (.created (preSave (buildMovement cfg calcDist uid fid s))
        (codeQuotaCount store uid now + 1)
        ((cfg.maxMovementsPerDay : ℤ) - (codeQuotaCount store uid now + 1)),
       store ++ [preSave (buildMovement cfg calcDist uid fid s)]) := by
  simp [registerMovement, hv, not_le.mpr hq]

theorem registerMovement_quotaExceeded (cfg : Config)
    (calcDist : ℚ → ℚ → ℚ → ℚ → ℚ) (now : ℤ) (store : List Movement)
    (uid fid : ℕ) (s : Submission)
    (hv : validateSubmission cfg now s = [])
    (hq : cfg.maxMovementsPerDay ≤ codeQuotaCount store uid now) :
    registerMovement cfg calcDist now (some ⟨true⟩) store uid fid s =
      (.quotaExceeded (codeQuotaCount store uid now) cfg.maxMovementsPerDay,
       store) := by
  simp [registerMovement, hv, hq]

theorem registerMovement_invalid (cfg : Config)
    (calcDist : ℚ → ℚ → ℚ → ℚ → ℚ) (now : ℤ) (user : Option UserRec)
    (store : List Movement) (uid fid : ℕ) (s : Submission)
    (hv : ¬ validateSubmission cfg now s = []) :
    registerMovement cfg calcDist now user store uid fid s =
      (.validationError (validateSubmission cfg now s), store) := by
  simp [registerMovement, hv]

theorem registerMovement_created_inv (cfg : Config)
    (calcDist : ℚ → ℚ → ℚ → ℚ → ℚ) (now : ℤ) (user : Option UserRec)
    (store : List Movement) (uid fid : ℕ) (s : Submission)
    (rec : Movement) (n : ℕ) (rem : ℤ) (store' : List Movement)
    (h : registerMovement cfg calcDist now user store uid fid s =
      (.created rec n rem, store')) :
    validateSubmission cfg now s = [] ∧ user = some ⟨true⟩ ∧
      codeQuotaCount store uid now < cfg.maxMovementsPerDay ∧
      rec = preSave (buildMovement cfg calcDist uid fid s) ∧
      store' = store ++ [rec] := by
  by_cases hv : validateSubmission cfg now s = []
  · rcases user with _ | u
    · simp [registerMovement, hv] at h
    · rcases u with ⟨b⟩
      cases b
      · simp [registerMovement, hv] at h
      · by_cases hq : cfg.maxMovementsPerDay ≤ codeQuotaCount store uid now
        · simp [registerMovement, hv, hq] at h
        · rw [registerMovement_created cfg calcDist now store uid fid s hv
            (not_le.mp hq)] at h
          obtain ⟨h1, h2⟩ := Prod.mk.injEq .. ▸ h
          cases h1
          exact ⟨hv, rfl, not_le.mp hq, rfl, h2.symm⟩
  · simp [registerMovement, hv] at h

/-! ### Helper lemmas about the Geodesic Calculator -/

theorem haversineTerm_symm (lat1 lon1 lat2 lon2 : ℝ) :
    haversineTerm lat1 lon1 lat2 lon2 = haversineTerm lat2 lon2 lat1 lon1 := by
  simp only [haversineTerm, deg2rad]
  have e1 : (lat1 - lat2) * (Real.pi / 180) / 2 =
      -((lat2 - lat1) * (Real.pi / 180) / 2) := by ring
  have e2 : (lon1 - lon2) * (Real.pi / 180) / 2 =
      -((lon2 - lon1) * (Real.pi / 180) / 2) := by ring
  rw [e1, e2]
  simp only [Real.sin_neg]
  ring

theorem haversineTerm_self (lat lon : ℝ) : haversineTerm lat lon lat lon = 0 := by
  simp [haversineTerm, deg2rad]

theorem atan2_zero_one : atan2 0 1 = 0 := by
  norm_num [atan2, Real.arctan_zero]

/-! ### C1: the Quota Enforcer -/

/-- **C1** (counterexample): the quota count the code runs (lines 188-194)
has no condition on the `deleted` flag.  With fifty soft-deleted movements
of user 1 dated today, the count of accepted, non-deleted records that the
claim says is used equals 0 — strictly below the default limit 50 — yet a
well-formed submission is rejected with `QuotaExceeded` carrying
`count = 50, limit = 50`, refuting the claim at this input. -/
theorem quota_counts_deleted_counterexample :
    specQuotaCount storeC 1 nowC = 0 ∧ 0 < cfgC.maxMovementsPerDay ∧
    registerMovement cfgC distC nowC (some ⟨true⟩) storeC 1 100 subC =
      (.quotaExceeded 50 50, storeC) := by
  refine ⟨by simp +decide [specQuotaCount, storeC, List.filter_replicate],
    by decide, ?_⟩
  have hval : validateSubmission cfgC nowC subC = [] := by
    norm_num [validateSubmission, validateLocation, dateErrors, jsTrim, subC,
      cfgC, nowC]
    decide
  have hq : codeQuotaCount storeC 1 nowC = 50 := by
    simp +decide [codeQuotaCount, storeC, List.filter_replicate]
  have hl : cfgC.maxMovementsPerDay = 50 := rfl
  simp [registerMovement, hval, hq, hl]

/-- **C1** (amended): for every submission passing field validation by an
active user, `registerMovement` counts ALL of the user's existing movement
records — including soft-deleted ones — whose `fecha` falls within the
current calendar day, accepts exactly when that count is strictly below
the configured daily limit (default 50, `Config.maxMovementsPerDay`), and
when `count ≥ limit` rejects with `QuotaExceeded` carrying the count and
the limit while inserting no record. -/
theorem quota_enforcer_amended (cfg : Config) (calcDist : ℚ → ℚ → ℚ → ℚ → ℚ)
    (now : ℤ) (store : List Movement) (uid fid : ℕ) (s : Submission)
    (hv : validateSubmission cfg now s = []) :
    (cfg.maxMovementsPerDay ≤ codeQuotaCount store uid now →
      registerMovement cfg calcDist now (some ⟨true⟩) store uid fid s =
        (.quotaExceeded (codeQuotaCount store uid now) cfg.maxMovementsPerDay,
         store)) ∧
    (codeQuotaCount store uid now < cfg.maxMovementsPerDay →
      registerMovement cfg calcDist now (some ⟨true⟩) store uid fid s =
        (.created (preSave (buildMovement cfg calcDist uid fid s))
          (codeQuotaCount store uid now + 1)
          ((cfg.maxMovementsPerDay : ℤ) - (codeQuotaCount store uid now + 1)),
         store ++ [preSave (buildMovement cfg calcDist uid fid s)])) :=
  ⟨fun hq => registerMovement_quotaExceeded cfg calcDist now store uid fid s hv hq,
   fun hq => registerMovement_created cfg calcDist now store uid fid s hv hq⟩

/-- Witness for C1 (amended): on an empty store the count is 0 < 50 and the
well-formed submission `subC` is accepted and inserted. -/
theorem quota_enforcer_amended_witness :
    registerMovement cfgC distC nowC (some ⟨true⟩) [] 1 100 subC =
      (.created (preSave (buildMovement cfgC distC 1 100 subC)) 1 49,
       [preSave (buildMovement cfgC distC 1 100 subC)]) := by
  have hval : validateSubmission cfgC nowC subC = [] := by
    norm_num [validateSubmission, validateLocation, dateErrors, jsTrim, subC,
      cfgC, nowC]
    decide
  have h := (quota_enforcer_amended cfgC distC nowC [] 1 100 subC hval).2
    (by decide)
  norm_num [codeQuotaCount] at h
  convert h using 2

/-! ### C5: the Geodesic Calculator -/

/-- **C5**: `calculateDistance` — the haversine great-circle distance with
Earth radius 6371 km in the `atan2` formulation, rounded to 2 decimals —
is symmetric in its two coordinate pairs and returns 0 on identical
points. -/
theorem calculateDistance_symm_self :
    (∀ lat1 lon1 lat2 lon2 : ℝ,
      calculateDistance lat1 lon1 lat2 lon2 =
        calculateDistance lat2 lon2 lat1 lon1) ∧
    (∀ lat lon : ℝ, calculateDistance lat lon lat lon = 0) := by
  constructor
  · intro lat1 lon1 lat2 lon2
    simp only [calculateDistance]
    rw [haversineTerm_symm]
  · intro lat lon
    simp only [calculateDistance, haversineTerm_self]
    rw [Real.sqrt_zero, sub_zero, Real.sqrt_one, atan2_zero_one]
    norm_num

/-! ### More projection lemmas for the hook and the built record -/

theorem durationStep_distancia_calculada (m : Movement) :
    (durationStep m).distancia_calculada = m.distancia_calculada := by
  unfold durationStep
  cases m.fecha_fin <;> [rfl; split_ifs <;> rfl]

theorem durationStep_distanceAccuracy (m : Movement) :
    (durationStep m).distanceAccuracy = m.distanceAccuracy := by
  unfold durationStep
  cases m.fecha_fin <;> [rfl; split_ifs <;> rfl]

theorem durationStep_waypoints (m : Movement) :
    (durationStep m).waypoints = m.waypoints := by
  unfold durationStep
  cases m.fecha_fin <;> [rfl; split_ifs <;> rfl]

theorem preSave_distancia_calculada (m : Movement) :
    (preSave m).distancia_calculada = m.distancia_calculada := by
  simp only [preSave]
  split_ifs <;> simp [durationStep_distancia_calculada]

theorem preSave_distanceAccuracy (m : Movement) :
    (preSave m).distanceAccuracy = m.distanceAccuracy := by
  simp only [preSave]
  split_ifs <;> simp [durationStep_distanceAccuracy]

theorem preSave_waypoints (m : Movement) :
    (preSave m).waypoints = m.waypoints := by
  simp only [preSave]
  split_ifs <;> simp [durationStep_waypoints]

theorem preSave_tiempo_of_fecha_fin_none (m : Movement)
    (hf : m.fecha_fin = none) : (preSave m).tiempo_total = m.tiempo_total := by
  rw [preSave_of_fecha_fin_none m hf]
  split_ifs <;> rfl

/-- Any error entry makes the error map nonempty. -/
theorem ne_nil_of_hasErr (m : ErrorMap) (k : String)
    (h : hasErr m k = true) : m ≠ [] := by
  intro hnil
  subst hnil
  simp [hasErr] at h

/-- The `velocidad_maxima < velocidad_promedio` rule always leaves a
`velocidad_maxima` entry. -/
theorem hasErr_vmax_of_lt (cfg : Config) (now : ℤ) (s : Submission)
    (h : s.velocidad_maxima < s.velocidad_promedio) :
    hasErr (validateSubmission cfg now s) "velocidad_maxima" = true := by
  simp [validateSubmission, hasErr_append, hasErr_ite_single,
    hasErr_dateErrors_ne, h]
  simp [hasErr]

/-- The well-formed submission `subC` passes the validation block. -/
theorem subC_valid : validateSubmission cfgC nowC subC = [] := by
  norm_num [validateSubmission, validateLocation, dateErrors, jsTrim, subC,
    cfgC, nowC]
  decide

/-! ### C2: the speed invariant, the clamp and the rejection -/

/-- **C2**: (i) the model's pre-save hook clamps: whenever
`velocidad_maxima > 0` and `velocidad_promedio > velocidad_maxima` at save
time, the saved document has `velocidad_promedio = velocidad_maxima`;
(ii) the request-validation path rejects the same condition with a
`velocidad_maxima` violation; (iii) `maxSpeedKmh ≥ avgSpeedKmh` holds in
every persisted record: both `registerMovement` and `deleteMovement`
preserve the invariant across the whole store. -/
theorem speed_invariant :
    (∀ m : Movement, 0 < m.velocidad_maxima →
      m.velocidad_maxima < m.velocidad_promedio →
      (preSave m).velocidad_promedio = m.velocidad_maxima) ∧
    (∀ (cfg : Config) (now : ℤ) (s : Submission),
      s.velocidad_maxima < s.velocidad_promedio →
      hasErr (validateSubmission cfg now s) "velocidad_maxima" = true) ∧
    (∀ (cfg : Config) (calcDist : ℚ → ℚ → ℚ → ℚ → ℚ) (now : ℤ)
      (user : Option UserRec) (store : List Movement) (uid fid : ℕ)
      (s : Submission) (res : RegisterResult) (store' : List Movement),
      (∀ r ∈ store, r.velocidad_promedio ≤ r.velocidad_maxima) →
      registerMovement cfg calcDist now user store uid fid s = (res, store') →
      ∀ r ∈ store', r.velocidad_promedio ≤ r.velocidad_maxima) ∧
    (∀ (store : List Movement) (uid movId : ℕ) (now : ℤ)
      (res : DeleteResult) (store' : List Movement),
      (∀ r ∈ store, r.velocidad_promedio ≤ r.velocidad_maxima) →
      deleteMovement store uid movId now = (res, store') →
      ∀ r ∈ store', r.velocidad_promedio ≤ r.velocidad_maxima) := by
  refine ⟨preSave_clamps, hasErr_vmax_of_lt, ?_, ?_⟩
  · intro cfg calcDist now user store uid fid s res store' hinv h
    have hs : store' = (registerMovement cfg calcDist now user store uid fid s).2 :=
      (congrArg Prod.snd h).symm
    by_cases hv : validateSubmission cfg now s = []
    · rcases user with _ | u
      · have : (registerMovement cfg calcDist now none store uid fid s).2
            = store := by simp [registerMovement, hv]
        exact (hs.trans this) ▸ hinv
      · rcases u with ⟨b⟩
        cases b
        · have : (registerMovement cfg calcDist now (some ⟨false⟩) store uid fid s).2
              = store := by simp [registerMovement, hv]
          exact (hs.trans this) ▸ hinv
        · by_cases hq : cfg.maxMovementsPerDay ≤ codeQuotaCount store uid now
          · rw [registerMovement_quotaExceeded cfg calcDist now store uid fid s hv hq] at hs
            exact hs ▸ hinv
          · rw [registerMovement_created cfg calcDist now store uid fid s hv
              (not_le.mp hq)] at hs
            subst hs
            intro r hr
            rcases List.mem_append.mp hr with hr | hr
            · exact hinv r hr
            · rcases List.mem_singleton.mp hr with rfl
              have hsp : (buildMovement cfg calcDist uid fid s).velocidad_promedio ≤
                  (buildMovement cfg calcDist uid fid s).velocidad_maxima := by
                have h5 := ((validateSubmission_eq_nil cfg now s).mp hv).2.2.2.2.1
                exact roundTo_mono 1 h5.2.2
              exact preSave_speedInv _ hsp
    · rw [registerMovement_invalid cfg calcDist now user store uid fid s hv] at hs
      exact hs ▸ hinv
  · intro store uid movId now res store' hinv h
    unfold deleteMovement at h
    cases hfind : store.find? (fun r => r.mongoId == movId && r.user_id == uid) with
    | none =>
      rw [hfind] at h
      obtain ⟨-, h2⟩ := Prod.mk.injEq .. ▸ h
      exact h2 ▸ hinv
    | some m =>
      rw [hfind] at h
      obtain ⟨-, h2⟩ := Prod.mk.injEq .. ▸ h
      subst h2
      intro r hr
      rcases List.mem_map.mp hr with ⟨r0, hr0, hfr⟩
      by_cases hid : r0.mongoId == m.mongoId
      · rw [if_pos hid] at hfr
        subst hfr
        have hm : m ∈ store := List.mem_of_find?_eq_some hfind
        have hminv := hinv m hm
        exact preSave_speedInv _ hminv
      · rw [if_neg hid] at hfr
        exact hfr ▸ hinv r0 hr0

/-- Witness for C2: the hook clamps the concrete record `clampMovC`
(max 50 < avg 60, saved as avg 50), and the validator flags
`subMaxLtAvg` (max 10 < avg 30). -/
theorem speed_invariant_witness :
    (preSave clampMovC).velocidad_promedio = clampMovC.velocidad_maxima ∧
    hasErr (validateSubmission cfgC nowC subMaxLtAvg) "velocidad_maxima" = true :=
  ⟨speed_invariant.1 clampMovC (by decide) (by decide),
   speed_invariant.2.1 cfgC nowC subMaxLtAvg (by decide)⟩

/-! ### C3: max-below-average speed is a keyed rejection -/

/-- **C3**: every submission with `maxSpeedKmh < avgSpeedKmh` gets a
violation keyed on `velocidad_maxima` and `registerMovement` answers with
the 400 validation response carrying the error map, leaving the store
unchanged — the values are never swapped or clamped on this path. -/
theorem max_lt_avg_rejected (cfg : Config) (calcDist : ℚ → ℚ → ℚ → ℚ → ℚ)
    (now : ℤ) (user : Option UserRec) (store : List Movement) (uid fid : ℕ)
    (s : Submission) (h : s.velocidad_maxima < s.velocidad_promedio) :
    hasErr (validateSubmission cfg now s) "velocidad_maxima" = true ∧
    registerMovement cfg calcDist now user store uid fid s =
      (.validationError (validateSubmission cfg now s), store) :=
  ⟨hasErr_vmax_of_lt cfg now s h,
   registerMovement_invalid cfg calcDist now user store uid fid s
    (ne_nil_of_hasErr _ _ (hasErr_vmax_of_lt cfg now s h))⟩

/-- Witness for C3 at `subMaxLtAvg` (max 10 < avg 30). -/
theorem max_lt_avg_rejected_witness :
    hasErr (validateSubmission cfgC nowC subMaxLtAvg) "velocidad_maxima" = true ∧
    registerMovement cfgC distC nowC (some ⟨true⟩) [] 1 100 subMaxLtAvg =
      (.validationError (validateSubmission cfgC nowC subMaxLtAvg), []) :=
  max_lt_avg_rejected cfgC distC nowC (some ⟨true⟩) [] 1 100 subMaxLtAvg
    (by decide)

/-! ### C4: the coherence check is informational only -/

/-- **C4**: a submission that passes field validation is never rejected for
a distance discrepancy — whatever `calcDist` computes and whatever the
claimed distance, with an active user below quota the record is created;
it stores the recomputed geodesic value in `distancia_calculada` and the
absolute discrepancy in `distanceAccuracy`, both derived from the
submitted coordinates via `calcDist`, never taken from the caller. -/
theorem coherence_informational (cfg : Config) (calcDist : ℚ → ℚ → ℚ → ℚ → ℚ)
    (now : ℤ) (store : List Movement) (uid fid : ℕ) (s : Submission)
    (hv : validateSubmission cfg now s = [])
    (hq : codeQuotaCount store uid now < cfg.maxMovementsPerDay) :
    registerMovement cfg calcDist now (some ⟨true⟩) store uid fid s =
      (.created (preSave (buildMovement cfg calcDist uid fid s))
        (codeQuotaCount store uid now + 1)
        ((cfg.maxMovementsPerDay : ℤ) - (codeQuotaCount store uid now + 1)),
       store ++ [preSave (buildMovement cfg calcDist uid fid s)]) ∧
    (preSave (buildMovement cfg calcDist uid fid s)).distancia_calculada =
      calcDist (locLat s.start_location) (locLon s.start_location)
        (locLat s.end_location) (locLon s.end_location) ∧
    (preSave (buildMovement cfg calcDist uid fid s)).distanceAccuracy =
      |calcDist (locLat s.start_location) (locLon s.start_location)
        (locLat s.end_location) (locLon s.end_location) -
        s.distancia_recorrida| := by
  refine ⟨registerMovement_created cfg calcDist now store uid fid s hv hq, ?_, ?_⟩
  · rw [preSave_distancia_calculada]
    rfl
  · rw [preSave_distanceAccuracy]
    rfl

/-- Witness for C4: `subC` claims 15 km while `distC` computes 14 km; the
submission is accepted and the created record stores the recomputed 14 and
the discrepancy 1. -/
theorem coherence_informational_witness :
    (registerMovement cfgC distC nowC (some ⟨true⟩) [] 1 100 subC).1 =
      .created (preSave (buildMovement cfgC distC 1 100 subC)) 1 49 ∧
    (preSave (buildMovement cfgC distC 1 100 subC)).distancia_calculada = 14 ∧
    (preSave (buildMovement cfgC distC 1 100 subC)).distanceAccuracy = 1 := by
  have h := coherence_informational cfgC distC nowC [] 1 100 subC subC_valid
    (by decide)
  have h0 : codeQuotaCount [] 1 nowC = 0 := rfl
  refine ⟨?_, ?_, ?_⟩
  · have h1 := congrArg Prod.fst h.1
    rw [h0] at h1
    norm_num at h1
    exact h1
  · rw [h.2.1]
    rfl
  · rw [h.2.2]
    norm_num [subC, distC]

/-! ### C6: the date rule -/

/-- **C6**: for a submission whose date parses to `t`, validation leaves a
violation keyed `fecha` exactly when the date is in the future (by any
amount) or more than 7 days before the current moment; dates within the
last 7 days up to now pass this rule. -/
theorem date_rule (cfg : Config) (now : ℤ) (s : Submission) (t : ℤ)
    (h : s.fecha = some t) :
    hasErr (validateSubmission cfg now s) "fecha" =
      (decide (now < t) || decide (t < now - 7 * 86400000)) := by
  simp [validateSubmission, hasErr_append, hasErr_ite_single, h,
    hasErr_dateErrors_fecha]

/-- Witness for C6: a date equal to the current moment passes; one
millisecond in the future is flagged. -/
theorem date_rule_witness :
    hasErr (validateSubmission cfgC nowC subC) "fecha" = false ∧
    hasErr (validateSubmission cfgC nowC
      { subC with fecha := some (nowC + 1) }) "fecha" = true := by
  constructor
  · rw [date_rule cfgC nowC subC nowC rfl]
    decide
  · rw [date_rule cfgC nowC { subC with fecha := some (nowC + 1) } (nowC + 1) rfl]
    decide

/-! ### C7: the validator reports all violations and is atomic -/

/-- **C7**: all field rules are evaluated — an out-of-range claimed
distance and an invalid region label each leave their own entry in the
error map, also when violated simultaneously — and whenever the map is
nonempty `registerMovement` answers with the 400 validation response
carrying the whole map, leaving the store unchanged (no record created). -/
theorem validator_complete_atomic (cfg : Config) (now : ℤ) (s : Submission) :
    (validateLocation cfg.validateColombiaBounds s.start_location = false →
      hasErr (validateSubmission cfg now s) "start_location" = true) ∧
    (validateLocation cfg.validateColombiaBounds s.end_location = false →
      hasErr (validateSubmission cfg now s) "end_location" = true) ∧
    ((s.distancia_recorrida ≤ 0 ∨ 1000 < s.distancia_recorrida) →
      hasErr (validateSubmission cfg now s) "distancia_recorrida" = true) ∧
    ((s.velocidad_promedio ≤ 0 ∨ 200 < s.velocidad_promedio) →
      hasErr (validateSubmission cfg now s) "velocidad_promedio" = true) ∧
    ((s.velocidad_maxima ≤ 0 ∨ 300 < s.velocidad_maxima ∨
        s.velocidad_maxima < s.velocidad_promedio) →
      hasErr (validateSubmission cfg now s) "velocidad_maxima" = true) ∧
    ((s.tiempo_total ≤ 0 ∨ 1440 < s.tiempo_total) →
      hasErr (validateSubmission cfg now s) "tiempo_total" = true) ∧
    (s.fecha = none → hasErr (validateSubmission cfg now s) "fecha" = true) ∧
    ((s.region = "" ∨ (jsTrim s.region).length < 2 ∨
        50 < (jsTrim s.region).length) →
      hasErr (validateSubmission cfg now s) "region" = true) ∧
    (∀ (calcDist : ℚ → ℚ → ℚ → ℚ → ℚ) (user : Option UserRec)
      (store : List Movement) (uid fid : ℕ),
      validateSubmission cfg now s ≠ [] →
      registerMovement cfg calcDist now user store uid fid s =
        (.validationError (validateSubmission cfg now s), store)) := by
  refine ⟨?_, ?_, ?_, ?_, ?_, ?_, ?_, ?_, ?_⟩
  · intro h
    have hc : ¬ (validateLocation cfg.validateColombiaBounds
        s.start_location = true) := by simp [h]
    simp [validateSubmission, hasErr_append, hasErr_ite_single,
      hasErr_dateErrors_ne, hc]
    simp [hasErr]
  · intro h
    have hc : ¬ (validateLocation cfg.validateColombiaBounds
        s.end_location = true) := by simp [h]
    simp [validateSubmission, hasErr_append, hasErr_ite_single,
      hasErr_dateErrors_ne, hc]
    simp [hasErr]
  · intro h
    simp [validateSubmission, hasErr_append, hasErr_ite_single,
      hasErr_dateErrors_ne, h]
    simp [hasErr]
  · intro h
    simp [validateSubmission, hasErr_append, hasErr_ite_single,
      hasErr_dateErrors_ne, h]
    simp [hasErr]
  · intro h
    simp [validateSubmission, hasErr_append, hasErr_ite_single,
      hasErr_dateErrors_ne, h]
    simp [hasErr]
  · intro h
    simp [validateSubmission, hasErr_append, hasErr_ite_single,
      hasErr_dateErrors_ne, h]
    simp [hasErr]
  · intro h
    simp [validateSubmission, hasErr_append, hasErr_ite_single, dateErrors,
      h]
    simp [hasErr]
  · intro h
    simp [validateSubmission, hasErr_append, hasErr_ite_single,
      hasErr_dateErrors_ne, h]
    simp [hasErr]
  · intro calcDist user store uid fid hne
    exact registerMovement_invalid cfg calcDist now user store uid fid s hne

/-- Witness for C7: `subTwoBad` (distance 2000, region label of one
character) produces both entries and a 400 response with no insert. -/
theorem validator_complete_atomic_witness :
    hasErr (validateSubmission cfgC nowC subTwoBad) "distancia_recorrida" = true ∧
    hasErr (validateSubmission cfgC nowC subTwoBad) "region" = true ∧
    registerMovement cfgC distC nowC (some ⟨true⟩) [] 1 100 subTwoBad =
      (.validationError (validateSubmission cfgC nowC subTwoBad), []) := by
  obtain ⟨-, -, hdist, -, -, -, -, hreg, hatomic⟩ :=
    validator_complete_atomic cfgC nowC subTwoBad
  have hd : subTwoBad.distancia_recorrida ≤ 0 ∨
      1000 < subTwoBad.distancia_recorrida := by
    right
    norm_num [subTwoBad, subC]
  have hr : subTwoBad.region = "" ∨ (jsTrim subTwoBad.region).length < 2 ∨
      50 < (jsTrim subTwoBad.region).length := by
    right; left; decide
  exact ⟨hdist hd, hreg hr,
    hatomic distC (some ⟨true⟩) [] 1 100 (ne_nil_of_hasErr _ _ (hreg hr))⟩

/-! ### C9: how the duration is transformed on persist -/

/-- On the decimal-notation range `[1e-6, 1440]`, `parseInt` of a number
is the floor. -/
theorem jsParseInt_eq_floor {x : ℚ} (h1 : 1 / 10 ^ 6 ≤ x) (h2 : x ≤ 1440) :
    jsParseInt x = ⌊x⌋ := by
  have hx : (0 : ℚ) < x := lt_of_lt_of_le (by norm_num) h1
  rw [jsParseInt, if_neg hx.ne', if_neg ?_, if_pos hx.le]
  rw [abs_of_pos hx]
  push_neg
  exact ⟨h1, by nlinarith⟩

/-- `parseInt(5e-7) = 5`: the number stringifies as `"5e-7"` and the
leading mantissa digit is parsed. -/
theorem jsParseInt_tiny : jsParseInt (1 / 2000000 : ℚ) = 5 := by
  have hr : (0 : ℚ) < 1 / 2000000 := by norm_num
  have hlog : Int.log 10 ((1 : ℚ) / 2000000) = -7 := by
    have hle : (-7 : ℤ) ≤ Int.log 10 ((1 : ℚ) / 2000000) :=
      (Int.zpow_le_iff_le_log (by norm_num) hr).mp (by norm_num)
    have hlt : Int.log 10 ((1 : ℚ) / 2000000) < -6 :=
      (Int.lt_zpow_iff_log_lt (by norm_num) hr).mp (by norm_num)
    omega
  rw [jsParseInt, if_neg hr.ne',
    if_pos (Or.inl (by rw [abs_of_pos hr]; norm_num)),
    if_pos hr, abs_of_pos hr, hlog]
  norm_num

/-- **C9** (counterexample): the duration `5e-7` minutes passes field
validation and lies strictly between 0 and 1, yet the persisted
`tiempo_total` is `5`, not the truncation `0`: JS stringifies numbers
below `1e-6` in exponent notation and `parseInt("5e-7") = 5`.  This
refutes the claim that `registerMovement` truncates every accepted
duration and that every duration in (0, 1) is stored as 0. -/
theorem tiempo_exponent_counterexample :
    validateSubmission cfgC nowC subTiny = [] ∧
    (0 : ℚ) < subTiny.tiempo_total ∧ subTiny.tiempo_total < 1 ∧
    (preSave (buildMovement cfgC distC 1 100 subTiny)).tiempo_total = 5 ∧
    ⌊subTiny.tiempo_total⌋ = 0 := by
  refine ⟨?_, by norm_num [subTiny, subC], by norm_num [subTiny, subC], ?_,
    by norm_num [subTiny, subC]⟩
  · norm_num [validateSubmission, validateLocation, dateErrors, jsTrim,
      subTiny, subC, cfgC, nowC]
    decide
  · rw [preSave_tiempo_of_fecha_fin_none _ rfl]
    show jsParseInt subTiny.tiempo_total = 5
    exact jsParseInt_tiny

/-- **C9** (amended): field validation accepts any duration in
`(0, 1440]`; the persisted `tiempo_total` is `parseInt(tiempo_total)`,
which for every duration in `[1e-6, 1440]` — where the number stringifies
in decimal notation — is the truncation to an integer; in particular a
duration in `[1e-6, 1)` (e.g. 0.5) passes validation but is stored as
`tiempo_total = 0`, violating the positivity the validator enforced on
input.  (Durations below `1e-6` stringify in exponent notation and are
stored as the leading mantissa digit instead — see the counterexample.) -/
theorem tiempo_total_truncated_amended (cfg : Config) (now : ℤ)
    (s : Submission) (h1 : 1 / 10 ^ 6 ≤ s.tiempo_total)
    (h2 : s.tiempo_total ≤ 1440) :
    hasErr (validateSubmission cfg now s) "tiempo_total" = false ∧
    (∀ (calcDist : ℚ → ℚ → ℚ → ℚ → ℚ) (uid fid : ℕ),
      (preSave (buildMovement cfg calcDist uid fid s)).tiempo_total =
        ⌊s.tiempo_total⌋) ∧
    (s.tiempo_total < 1 → ⌊s.tiempo_total⌋ = 0) := by
  have h0 : (0 : ℚ) < s.tiempo_total := lt_of_lt_of_le (by norm_num) h1
  refine ⟨?_, ?_, ?_⟩
  · have hc : ¬ (s.tiempo_total ≤ 0 ∨ 1440 < s.tiempo_total) := by
      push_neg
      exact ⟨h0, h2⟩
    simp [validateSubmission, hasErr_append, hasErr_ite_single,
      hasErr_dateErrors_ne, hc]
  · intro calcDist uid fid
    rw [preSave_tiempo_of_fecha_fin_none _ rfl]
    show jsParseInt s.tiempo_total = ⌊s.tiempo_total⌋
    exact jsParseInt_eq_floor h1 h2
  · intro hlt
    exact Int.floor_eq_zero_iff.mpr (Set.mem_Ico.mpr ⟨h0.le, hlt⟩)

/-- Witness for C9 (amended): duration 1/2 passes validation and is
persisted as 0. -/
theorem tiempo_total_truncated_amended_witness :
    hasErr (validateSubmission cfgC nowC subHalf) "tiempo_total" = false ∧
    (preSave (buildMovement cfgC distC 1 100 subHalf)).tiempo_total = 0 := by
  have h := tiempo_total_truncated_amended cfgC nowC subHalf
    (by norm_num [subHalf, subC]) (by norm_num [subHalf, subC])
  exact ⟨h.1, (h.2.1 distC 1 100).trans
    (h.2.2 (by norm_num [subHalf, subC]))⟩

/-! ### C8: waypoint filtering -/

/-- **C8**: for every accepted submission the persisted waypoint sequence
is exactly the subsequence of the submitted waypoints that pass
`validateLocation` (the same rule as start/end locations), in original
relative order (`List.filter` preserves order); invalid waypoints never
cause rejection — replacing the waypoint list by any other list still
yields a 201 `created` response. -/
theorem waypoints_filtered (cfg : Config) (calcDist : ℚ → ℚ → ℚ → ℚ → ℚ)
    (now : ℤ) (user : Option UserRec) (store : List Movement) (uid fid : ℕ)
    (s : Submission) (rec : Movement) (n : ℕ) (rem : ℤ)
    (store' : List Movement)
    (h : registerMovement cfg calcDist now user store uid fid s =
      (.created rec n rem, store')) :
    rec.waypoints =
      s.waypoints.filter (validateLocation cfg.validateColombiaBounds) ∧
    store' = store ++ [rec] ∧
    ∀ w' : List (Option LocationInput),
      (registerMovement cfg calcDist now user store uid fid
        { s with waypoints := w' }).1.isCreated = true := by
  obtain ⟨hv, hu, hq, hrec, hstore⟩ :=
    registerMovement_created_inv cfg calcDist now user store uid fid s
      rec n rem store' h
  refine ⟨?_, hstore, ?_⟩
  · rw [hrec, preSave_waypoints]
    rfl
  · intro w'
    have hv' : validateSubmission cfg now { s with waypoints := w' } = [] := hv
    subst hu
    rw [registerMovement_created cfg calcDist now store uid fid
      { s with waypoints := w' } hv' hq]
    rfl

/-- Witness for C8: five submitted waypoints, two with out-of-range
latitude, yield exactly the three valid ones in their original order. -/
theorem waypoints_filtered_witness :
    (preSave (buildMovement cfgC distC 1 100 subWaypoints)).waypoints =
      subWaypoints.waypoints.filter
        (validateLocation cfgC.validateColombiaBounds) ∧
    (preSave (buildMovement cfgC distC 1 100 subWaypoints)).waypoints =
      [some ⟨some 5, some (-74), none, none⟩,
       some ⟨some 6, some (-74), none, none⟩,
       some ⟨some 7, some (-74), none, none⟩] := by
  have hv : validateSubmission cfgC nowC subWaypoints = [] := subC_valid
  have hW := registerMovement_created cfgC distC nowC [] 1 100 subWaypoints hv
    (by decide)
  have h := waypoints_filtered cfgC distC nowC (some ⟨true⟩) [] 1 100
    subWaypoints _ _ _ _ hW
  exact ⟨h.1, h.1.trans (by decide)⟩

/-! ### C10: soft deletion does not hide a record from reads -/

theorem durationStep_mongoId (m : Movement) :
    (durationStep m).mongoId = m.mongoId := by
  unfold durationStep
  cases m.fecha_fin <;> [rfl; split_ifs <;> rfl]

theorem durationStep_user_id (m : Movement) :
    (durationStep m).user_id = m.user_id := by
  unfold durationStep
  cases m.fecha_fin <;> [rfl; split_ifs <;> rfl]

theorem durationStep_deleted (m : Movement) :
    (durationStep m).deleted = m.deleted := by
  unfold durationStep
  cases m.fecha_fin <;> [rfl; split_ifs <;> rfl]

theorem preSave_mongoId (m : Movement) : (preSave m).mongoId = m.mongoId := by
  simp only [preSave]
  split_ifs <;> simp [durationStep_mongoId]

theorem preSave_user_id (m : Movement) : (preSave m).user_id = m.user_id := by
  simp only [preSave]
  split_ifs <;> simp [durationStep_user_id]

theorem preSave_deleted (m : Movement) : (preSave m).deleted = m.deleted := by
  simp only [preSave]
  split_ifs <;> simp [durationStep_deleted]

theorem markDeleted_mongoId (m : Movement) (uid : ℕ) (now : ℤ) :
    (markDeleted m uid now).mongoId = m.mongoId := by
  rw [markDeleted, preSave_mongoId]

theorem markDeleted_user_id (m : Movement) (uid : ℕ) (now : ℤ) :
    (markDeleted m uid now).user_id = m.user_id := by
  rw [markDeleted, preSave_user_id]

theorem markDeleted_deleted (m : Movement) (uid : ℕ) (now : ℤ) :
    (markDeleted m uid now).deleted = true := by
  rw [markDeleted, preSave_deleted]

/-- `find?` over the id-keyed replacement of the found element returns the
replacement, provided it still satisfies the predicate. -/
theorem find?_replace (store : List Movement) (p : Movement → Bool)
    (m m' : Movement) (hfind : store.find? p = some m)
    (hm' : p m' = true) :
    (store.map (fun r => if r.mongoId == m.mongoId then m' else r)).find? p =
      some m' := by
  induction store with
  | nil => simp at hfind
  | cons a t ih =>
    by_cases hpa : p a = true
    · rw [List.find?_cons_of_pos _ hpa] at hfind
      obtain rfl : a = m := by injection hfind
      rw [List.map_cons, if_pos (beq_self_eq_true a.mongoId)]
      exact List.find?_cons_of_pos _ hm'
    · rw [List.find?_cons_of_neg _ hpa] at hfind
      by_cases hida : (a.mongoId == m.mongoId) = true
      · rw [List.map_cons, if_pos hida]
        exact List.find?_cons_of_pos _ hm'
      · rw [List.map_cons, if_neg hida, List.find?_cons_of_neg _ hpa]
        exact ih hfind

/-- Replacing one element by another with the same predicate value keeps
the filtered count, when the replacement key identifies the element. -/
theorem filter_length_replace (store : List Movement) (q : Movement → Bool)
    (m m' : Movement) (hid : ∀ r ∈ store, r.mongoId = m.mongoId → r = m)
    (hq : q m' = q m) :
    ((store.map (fun r => if r.mongoId == m.mongoId then m' else r)).filter
      q).length = (store.filter q).length := by
  induction store with
  | nil => rfl
  | cons a t ih =>
    have hid' : ∀ r ∈ t, r.mongoId = m.mongoId → r = m :=
      fun r hr => hid r (List.mem_cons_of_mem a hr)
    rw [List.map_cons]
    by_cases hamid : (a.mongoId == m.mongoId) = true
    · have ha : a = m := hid a (List.mem_cons_self a t) (by simpa using hamid)
      rw [if_pos hamid, List.filter_cons, List.filter_cons, ha, hq]
      cases hqa : q m
      · rw [if_neg Bool.false_ne_true, if_neg Bool.false_ne_true]
        exact ih hid'
      · rw [if_pos rfl, if_pos rfl, List.length_cons, List.length_cons,
          ih hid']
    · rw [if_neg hamid, List.filter_cons, List.filter_cons]
      cases hqa : q a
      · rw [if_neg Bool.false_ne_true, if_neg Bool.false_ne_true]
        exact ih hid'
      · rw [if_pos rfl, if_pos rfl, List.length_cons, List.length_cons,
          ih hid']

/-- **C10**: after `deleteMovement` marks a movement as deleted, the owner's
`getMovementById` for that id still returns the (marked) movement, and the
movement still belongs to `getUserMovements`'s match set and its
`countDocuments` count is unchanged — neither query filters on the
`deleted` flag. -/
theorem soft_delete_visible (store : List Movement) (uid movId : ℕ)
    (now : ℤ) (m : Movement)
    (h : getMovementById store uid movId = some m)
    (hid : ∀ r ∈ store, r.mongoId = m.mongoId → r = m) :
    deleteMovement store uid movId now =
      (.deletedOk movId now,
       store.map (fun r =>
        if r.mongoId == m.mongoId then markDeleted m uid now else r)) ∧
    (markDeleted m uid now).deleted = true ∧
    getMovementById (deleteMovement store uid movId now).2 uid movId =
      some (markDeleted m uid now) ∧
    markDeleted m uid now ∈
      getUserMovementsList (deleteMovement store uid movId now).2 uid {} ∧
    getUserMovementsCount (deleteMovement store uid movId now).2 uid {} =
      getUserMovementsCount store uid {} := by
  have hfind : store.find? (fun r => r.mongoId == movId && r.user_id == uid) =
      some m := h
  have hpm := List.find?_some hfind
  have hpm' : (fun r => r.mongoId == movId && r.user_id == uid)
      (markDeleted m uid now) = true := by
    show ((markDeleted m uid now).mongoId == movId &&
      (markDeleted m uid now).user_id == uid) = true
    rw [markDeleted_mongoId, markDeleted_user_id]
    exact hpm
  have hdel : deleteMovement store uid movId now =
      (.deletedOk movId now,
       store.map (fun r =>
        if r.mongoId == m.mongoId then markDeleted m uid now else r)) := by
    unfold deleteMovement
    rw [hfind]
  refine ⟨hdel, markDeleted_deleted m uid now, ?_, ?_, ?_⟩
  · rw [hdel]
    exact find?_replace store _ m (markDeleted m uid now) hfind hpm'
  · rw [hdel]
    have hmem : markDeleted m uid now ∈ store.map (fun r =>
        if r.mongoId == m.mongoId then markDeleted m uid now else r) := by
      have hm : m ∈ store := List.mem_of_find?_eq_some hfind
      have h2 := List.mem_map_of_mem (fun r =>
        if r.mongoId == m.mongoId then markDeleted m uid now else r) hm
      simpa using h2
    refine List.mem_filter.mpr ⟨hmem, ?_⟩
    simp [matchesFilters, markDeleted_user_id]
    have := (Bool.and_eq_true ..).mp hpm
    simpa using this.2
  · rw [hdel]
    refine filter_length_replace store _ m (markDeleted m uid now) hid ?_
    simp [matchesFilters, markDeleted_user_id]

/-- Witness for C10: the store holding exactly the live movement of user 1
with id 7; after soft deletion the record is still returned and counted. -/
theorem soft_delete_visible_witness :
    deleteMovement [liveMovC] 1 7 nowC =
      (.deletedOk 7 nowC, [markDeleted liveMovC 1 nowC]) ∧
    (markDeleted liveMovC 1 nowC).deleted = true ∧
    getMovementById (deleteMovement [liveMovC] 1 7 nowC).2 1 7 =
      some (markDeleted liveMovC 1 nowC) ∧
    markDeleted liveMovC 1 nowC ∈
      getUserMovementsList (deleteMovement [liveMovC] 1 7 nowC).2 1 {} ∧
    getUserMovementsCount (deleteMovement [liveMovC] 1 7 nowC).2 1 {} =
      getUserMovementsCount [liveMovC] 1 {} := by
  have h := soft_delete_visible [liveMovC] 1 7 nowC liveMovC rfl
    (by
      intro r hr _
      simpa using List.mem_singleton.mp hr)
  refine ⟨?_, h.2.1, h.2.2.1, h.2.2.2.1, h.2.2.2.2⟩
  rw [h.1]
  rfl

end Backend
